import Mathlib

/-!
Verification development for the training orchestration core of
`train_c_xl.py` (StableCascade stage-C XL training script).

The Python source is shallowly embedded: each relevant method of
`WurstCore` becomes a Lean definition over an explicit state type.
Tensors are modelled over the rationals; a sample whose trailing
dimensions 1..3 are reduced by a mean is modelled as the flat list of
its elements (torch tensors are rectangular, so the mean over dims
[1, 2, 3] of a per-sample slice is the mean over its flattened
elements). Python exceptions are modelled with `Except`; because a
Python exception does not undo earlier in-place mutations, stateful
functions return the post-mutation state alongside the `Except` result.
-/

namespace WurstCore

/-! ## Backward pass (`WurstCore.backward_pass`, lines 208-225)

State touched by `backward_pass`: the accumulated gradient of the
generator parameters (modelled as an optional rational: `none` models
gradients zeroed with `set_to_none=True`), the per-key step counters of
the optimizers and schedulers bundles (`optimizers.to_dict()` /
`schedulers.to_dict()` are assoc lists from logical name to object),
and the global step counter `info.total_steps`.
-/

structure BPState where
  grads : Option ℚ
  optSteps : List (String × ℕ)
  schedSteps : List (String × ℕ)
  totalSteps : ℕ
deriving DecidableEq, Repr

/-- Observable operations performed by `backward_pass`, in program
order. `backward synced` records a call to `loss_adjusted.backward()`;
`synced = false` means the call happened inside the
`models.generator.no_sync()` scope, so no cross-process gradient
reduction takes place. -/
inductive Ev where
  | backward (synced : Bool)
  | clipGradNorm (maxNorm : ℚ)
  | optStep (k : String)
  | schedStep (k : String)
  | zeroGrad (k : String)
deriving DecidableEq, Repr

/-- Models `torch.nn.utils.clip_grad_norm_(params, maxNorm)`: computes the
global norm of the gradients (here the absolute value of the single
modelled gradient scalar), rescales the gradients when the norm exceeds
`maxNorm`, and returns the pre-clipping norm. -/
def clipGradNormOp (maxNorm g : ℚ) : ℚ × ℚ :=
  let norm := |g|
  (if maxNorm < norm then g * (maxNorm / norm) else g, norm)

/-- Embeds `WurstCore.backward_pass(update, loss, loss_adjusted, ...)`.
`g` is the gradient contributed by `loss_adjusted.backward()` (backward
accumulates into `.grad`). Returns the post-call state, the list of
performed operations in order, and the function result: the Python
`return grad_norm` raises `UnboundLocalError` when `update` is false,
because `grad_norm` is assigned only in the `if update:` branch. -/
def backward_pass (update : Bool) (g : ℚ) (st : BPState) :
    BPState × List Ev × Except String ℚ :=
  if update then
    -- loss_adjusted.backward()
    let st1 : BPState := { st with grads := some (st.grads.getD 0 + g) }
    -- grad_norm = nn.utils.clip_grad_norm_(models.generator.parameters(), 1.0)
    let clipped := clipGradNormOp 1 (st1.grads.getD 0)
    let st2 : BPState := { st1 with grads := some clipped.1 }
    -- for k in optimizers_dict: optimizers_dict[k].step()
    let st3 : BPState := { st2 with optSteps := st2.optSteps.map (fun p => (p.1, p.2 + 1)) }
    -- for k in schedulers_dict: schedulers_dict[k].step()
    let st4 : BPState := { st3 with schedSteps := st3.schedSteps.map (fun p => (p.1, p.2 + 1)) }
    -- for k in optimizers_dict: optimizers_dict[k].zero_grad(set_to_none=True)
    let st5 : BPState := { st4 with grads := none }
    -- self.info.total_steps += 1
    let st6 : BPState := { st5 with totalSteps := st5.totalSteps + 1 }
    (st6,
      [Ev.backward true, Ev.clipGradNorm 1]
        ++ st.optSteps.map (fun p => Ev.optStep p.1)
        ++ st.schedSteps.map (fun p => Ev.schedStep p.1)
        ++ st.optSteps.map (fun p => Ev.zeroGrad p.1),
      Except.ok clipped.2)
  else
    -- with models.generator.no_sync(): loss_adjusted.backward()
    ({ st with grads := some (st.grads.getD 0 + g) },
      [Ev.backward false],
      Except.error "UnboundLocalError: local variable grad_norm referenced before assignment")

/-- Run a sequence of micro-batches through `backward_pass`, one update
flag per micro-batch, collecting states and the concatenated operation
trace (exceptions are raised after the state mutations, so the state
threads through regardless of the `Except` result). -/
def runMicroBatches (g : ℚ) : List Bool → BPState → BPState × List Ev
  | [], st => (st, [])
  | b :: bs, st =>
    let r := backward_pass b g st
    let rest := runMicroBatches g bs r.1
    (rest.1, r.2.1 ++ rest.2)

/-- The update flags of one gradient-accumulation window of `n`
micro-batches: `update=False` for the first `n - 1`, `update=True` on
the final micro-batch. -/
def windowFlags (n : ℕ) : List Bool :=
  List.replicate (n - 1) false ++ [true]

/-! ## Warmup scheduler (`WurstCore.setup_schedulers`, lines 187-190)

`GradualWarmupScheduler` comes from the external `warmup_scheduler`
package, which is not part of this repository. -/

/-- Modelled from the spec: the `warmup_scheduler` package is missing
from the repository; the spec describes it as "a linear/gradual warmup
policy parameterized by a configured number of warmup steps" whose
internal position counter is `last_epoch`. The effective learning-rate
multiplier ramps linearly from the position counter over the warmup
length and saturates at the configured `multiplier=1` once warmup is
over. A freshly constructed scheduler starts at position 0. -/
structure GradualWarmupScheduler where
  total_epoch : ℕ
  last_epoch : ℕ
deriving DecidableEq, Repr

/-- Modelled from the spec: `GradualWarmupScheduler(optimizer,
multiplier=1, total_epoch=w)` starts with its position counter at 0. -/
def GradualWarmupScheduler.fresh (w : ℕ) : GradualWarmupScheduler :=
  { total_epoch := w, last_epoch := 0 }

/-- Modelled from the spec: `scheduler.step()` advances the internal
position counter by one. -/
def GradualWarmupScheduler.step (s : GradualWarmupScheduler) : GradualWarmupScheduler :=
  { s with last_epoch := s.last_epoch + 1 }

/-- Modelled from the spec: the effective learning-rate multiplier of a
linear warmup over `total_epoch` steps with target multiplier 1 —
`last_epoch / total_epoch`, saturating at 1 once warmup is complete. -/
def GradualWarmupScheduler.multiplier (s : GradualWarmupScheduler) : ℚ :=
  if s.total_epoch ≤ s.last_epoch then 1
  else (s.last_epoch : ℚ) / (s.total_epoch : ℚ)

/-- Embeds `WurstCore.setup_schedulers`: constructs the warmup scheduler with
`total_epoch = config.warmup_updates` and then assigns
`scheduler.last_epoch = self.info.total_steps`. -/
def setup_schedulers (warmup_updates total_steps : ℕ) : GradualWarmupScheduler :=
  let scheduler := GradualWarmupScheduler.fresh warmup_updates
  { scheduler with last_epoch := total_steps }

/-! ## Forward-pass loss (`WurstCore.forward_pass`, lines 201-206)

`pred` and `target` are batches of samples; each sample is the
flattened list of the elements of its trailing dims `[1, 2, 3]`.
`loss_weight` is the per-sample GDF weight returned by
`extras.gdf.diffuse`. -/

def listMean (xs : List ℚ) : ℚ := xs.sum / (xs.length : ℚ)

/-- Models `nn.functional.mse_loss(pred, target, reduction=none)` on one
sample: the elementwise squared error. -/
def mse_loss_none (pred target : List ℚ) : List ℚ :=
  List.zipWith (fun p t => (p - t) ^ 2) pred target

/-- Models `.mean(dim=[1, 2, 3])` applied to the elementwise squared error of
one sample: the mean over all non-batch elements. -/
def sampleLoss (pred target : List ℚ) : ℚ :=
  listMean (mse_loss_none pred target)

/-- Embeds `loss = nn.functional.mse_loss(pred, target,
reduction=none).mean(dim=[1, 2, 3])`: the per-sample loss vector. -/
def forwardLoss (pred target : List (List ℚ)) : List ℚ :=
  List.zipWith sampleLoss pred target

/-- Embeds `loss_adjusted = (loss * loss_weight).mean() /
self.config.grad_accum_steps`. -/
def loss_adjusted (pred target : List (List ℚ)) (loss_weight : List ℚ)
    (grad_accum_steps : ℕ) : ℚ :=
  listMean (List.zipWith (· * ·) (forwardLoss pred target) loss_weight)
    / (grad_accum_steps : ℚ)

/-! ## Checkpoint payloads (`WurstCore.setup_models`, lines 123-131 and
151-152)

A loaded checkpoint (the result of `torch.load`) is a Python dict whose
values are either tensors (modelled as rationals) or a nested state
dict. -/

inductive PyVal where
  | num (q : ℚ)
  | dict (entries : List (String × PyVal))
deriving BEq, Repr

abbrev Ckpt := List (String × PyVal)

def hasKey (c : Ckpt) (k : String) : Bool :=
  c.any (fun p => p.1 = k)

def getKey (c : Ckpt) (k : String) : Option PyVal :=
  (c.find? (fun p => p.1 = k)).map Prod.snd

/-- The payload handed to `load_state_dict` for the effnet and
previewer checkpoints (lines 124 and 131): the checkpoint itself when
the key `state_dict` is absent, its `state_dict` entry otherwise. -/
def selectStateDict (c : Ckpt) : PyVal :=
  if hasKey c "state_dict" then (getKey c "state_dict").getD (PyVal.dict c)
  else PyVal.dict c

/-- The payload handed to `generator.load_state_dict` for the resume
checkpoint (line 152): the `torch.load` result is applied directly,
with no `state_dict` unwrapping. -/
def generatorResumePayload (c : Ckpt) : PyVal :=
  PyVal.dict c

/-- A checkpoint written as a bare state mapping. -/
def mkBare (sd : List (String × ℚ)) : Ckpt :=
  sd.map (fun p => (p.1, PyVal.num p.2))

/-- A checkpoint whose state mapping is nested under the `state_dict`
key. -/
def mkWrapped (sd : List (String × ℚ)) : Ckpt :=
  [("state_dict", PyVal.dict (sd.map (fun p => (p.1, PyVal.num p.2))))]

/-- The weights a checkpoint of either form contains. -/
def containedWeights (sd : List (String × ℚ)) : PyVal :=
  PyVal.dict (sd.map (fun p => (p.1, PyVal.num p.2)))

/-! ## Generator topology selection (`WurstCore.setup_models`, lines
136-149)

A `StageC(...)` call site is modelled by its keyword arguments; `none`
means the argument is omitted so the library default applies (the
`modules.stage_c` sources are outside the scope of this file, so defaults
stay symbolic — the two call sites are compared by the arguments they
pass). -/

structure StageCArgs where
  c_cond : Option ℕ
  c_hidden : Option (List ℕ)
  nhead : Option (List ℕ)
  blocks : Option (List (List ℕ))
  switch_level : Option (List Bool)
deriving DecidableEq, Repr

/-- Arguments of `StageC(switch_level=[True])` — the 3.6B call site. -/
def stageCArgs36B : StageCArgs :=
  { c_cond := none, c_hidden := none, nhead := none, blocks := none,
    switch_level := some [true] }

/-- Arguments of `StageC(c_cond=1536, c_hidden=[1536, 1536], nhead=[24, 24],
blocks=[[4, 12], [12, 4]], switch_level=[True])` — the 1B call site. -/
def stageCArgs1B : StageCArgs :=
  { c_cond := some 1536, c_hidden := some [1536, 1536],
    nhead := some [24, 24], blocks := some [[4, 12], [12, 4]],
    switch_level := some [true] }

/-- The model-version dispatch of `setup_models`: builds the generator
call arguments, and the EMA shadow call arguments when
`config.ema_start_iters is not None`; any other `model_version` raises
`ValueError`. -/
def buildGenerators (model_version : String) (ema_start_iters : Option ℕ) :
    Except String (StageCArgs × Option StageCArgs) :=
  if model_version = "3.6B" then
    Except.ok (stageCArgs36B,
      if ema_start_iters.isSome then some stageCArgs36B else none)
  else if model_version = "1B" then
    Except.ok (stageCArgs1B,
      if ema_start_iters.isSome then some stageCArgs1B else none)
  else
    Except.error ("Unknown model version " ++ model_version)

/-- EMA weight initialization order (lines 155-158):
`generator_ema.load_state_dict(generator.state_dict())` copies the
trainable generator weights into the shadow, and only afterwards does
`self.load_model(generator_ema, ...)` apply any
EMA-specific checkpoint restore. Returns (weights before the restore,
weights after the restore). -/
def setupEmaWeights (genWeights : List (String × ℚ))
    (loadModelEma : List (String × ℚ) → List (String × ℚ)) :
    List (String × ℚ) × List (String × ℚ) :=
  let afterCopy := genWeights
  let afterRestore := loadModelEma afterCopy
  (afterCopy, afterRestore)

/-! ## Frozen-model mode flags (`WurstCore.setup_models`, lines
120-180)

Each model component carries a training-mode flag and a
requires-gradient flag. Construction and every weight load may leave
these flags in an arbitrary state, so `setup_models` is parameterized
by the flags each construction/load step yields; the embedding applies
`.eval().requires_grad_(False)` exactly where the source does. -/

structure ModuleFlags where
  training : Bool
  requiresGrad : Bool
deriving DecidableEq, Repr

/-- Models `.eval().requires_grad_(False)`. -/
def evalNoGrad (_m : ModuleFlags) : ModuleFlags :=
  { training := false, requiresGrad := false }

/-- The mode flags each construction or weight-load step of
`setup_models` leaves behind (arbitrary: loading can reset them). -/
structure LoadFlags where
  effnetLoaded : ModuleFlags
  previewerLoaded : ModuleFlags
  generatorLoaded : ModuleFlags
  emaRestored : ModuleFlags
  clipTextLoaded : ModuleFlags
  clipTextProjLoaded : ModuleFlags
  clipImageLoaded : ModuleFlags

/-- The mode flags of the models bundle returned by `setup_models`. -/
structure BundleFlags where
  effnet : ModuleFlags
  previewer : ModuleFlags
  generator : ModuleFlags
  generator_ema : Option ModuleFlags
  clip_text_model : ModuleFlags
  clip_text_model_proj : ModuleFlags
  clip_image_model : ModuleFlags
deriving DecidableEq, Repr

/-- The mode flags through `setup_models`, following the source order:
each frozen component gets `.eval().requires_grad_(False)` applied
after its weights are loaded; the trainable generator does not. -/
def setup_models_flags (lf : LoadFlags) (emaEnabled : Bool) : BundleFlags :=
  -- effnet: load_state_dict then effnet.eval().requires_grad_(False)
  let effnet := evalNoGrad lf.effnetLoaded
  -- previewer: load_state_dict then previewer.eval().requires_grad_(False)
  let previewer := evalNoGrad lf.previewerLoaded
  -- generator: optional resume load + self.load_model, never frozen
  let generator := lf.generatorLoaded
  -- generator_ema: copy, self.load_model, then eval().requires_grad_(False)
  let generator_ema := if emaEnabled then some (evalNoGrad lf.emaRestored) else none
  -- CLIP sub-models: from_pretrained ... .eval().requires_grad_(False)
  let clip_text_model := evalNoGrad lf.clipTextLoaded
  let clip_text_model_proj := evalNoGrad lf.clipTextProjLoaded
  let clip_image_model := evalNoGrad lf.clipImageLoaded
  { effnet := effnet, previewer := previewer, generator := generator,
    generator_ema := generator_ema, clip_text_model := clip_text_model,
    clip_text_model_proj := clip_text_model_proj,
    clip_image_model := clip_image_model }

/-- A component is frozen when it is in evaluation mode with gradient
tracking disabled. -/
def ModuleFlags.frozen (m : ModuleFlags) : Prop :=
  m.training = false ∧ m.requiresGrad = false

/-! ## Conditioning fields (`WurstCore.get_conditions`, lines 112-117) -/

def defaultReturnFields : List String :=
  ["clip_text", "clip_text_pooled", "clip_img"]

/-- Python `a or b` on an optional list argument: `None` and the empty
list are falsy, so both select the default. -/
def pyOrList (a : Option (List String)) (b : List String) : List String :=
  match a with
  | none => b
  | some l => if l.isEmpty then b else l

/-- Computes the `return_fields` value `WurstCore.get_conditions` passes to the
parent implementation: `return_fields or [clip_text,
clip_text_pooled, clip_img]` (Python source, line 115). -/
def get_conditions_return_fields (return_fields : Option (List String)) : List String :=
  pyOrList return_fields defaultReturnFields

/-! ## Helper lemmas -/

theorem runMicroBatches_fst_append (g : ℚ) (as bs : List Bool) (st : BPState) :
    (runMicroBatches g (as ++ bs) st).1
      = (runMicroBatches g bs (runMicroBatches g as st).1).1 := by
  induction as generalizing st with
  | nil => simp [runMicroBatches]
  | cons b tl ih => simp [runMicroBatches, ih]

theorem runMicroBatches_snd_append (g : ℚ) (as bs : List Bool) (st : BPState) :
    (runMicroBatches g (as ++ bs) st).2
      = (runMicroBatches g as st).2
          ++ (runMicroBatches g bs (runMicroBatches g as st).1).2 := by
  induction as generalizing st with
  | nil => simp [runMicroBatches]
  | cons b tl ih => simp [runMicroBatches, ih]

theorem runMicroBatches_replicate_false_totalSteps (g : ℚ) (k : ℕ) (st : BPState) :
    (runMicroBatches g (List.replicate k false) st).1.totalSteps = st.totalSteps := by
  induction k generalizing st with
  | zero => rfl
  | succ n ih => simpa [List.replicate_succ, runMicroBatches, backward_pass] using ih _

theorem runMicroBatches_replicate_false_trace (g : ℚ) (k : ℕ) (st : BPState) :
    (runMicroBatches g (List.replicate k false) st).2
      = List.replicate k (Ev.backward false) := by
  induction k generalizing st with
  | zero => rfl
  | succ n ih => simp [List.replicate_succ, runMicroBatches, backward_pass, ih]

theorem clipGradNormOp_fst_abs_le_one (x : ℚ) : |(clipGradNormOp 1 x).1| ≤ 1 := by
  unfold clipGradNormOp
  by_cases h : (1 : ℚ) < |x|
  · have hpos : 0 < |x| := lt_trans one_pos h
    simp only [h, if_true]
    rw [abs_mul, abs_div, abs_one, abs_abs, mul_one_div, div_self hpos.ne']
  · simp only [h, if_false]
    exact le_of_not_lt h

theorem count_backward_true_update_trace (g : ℚ) (st : BPState) :
    ((backward_pass true g st).2.1).count (Ev.backward true) = 1 := by
  simp [backward_pass, List.count_append, List.count_cons, List.count_eq_zero, List.mem_map]

/-! ## Claims -/

/-- C10: `get_conditions` substitutes the default field list
`[clip_text, clip_text_pooled, clip_img]` both when
`return_fields` is `None` and when it is the empty list, because the
default is selected by Python truthiness; no caller can request an
empty set of conditioning fields. -/
theorem C10_get_conditions_default_fields :
    get_conditions_return_fields none = defaultReturnFields ∧
    get_conditions_return_fields (some []) = defaultReturnFields ∧
    ∀ rf : Option (List String), get_conditions_return_fields rf ≠ [] := by
  refine ⟨rfl, rfl, fun rf => ?_⟩
  cases rf with
  | none => simp [get_conditions_return_fields, pyOrList, defaultReturnFields]
  | some l =>
    by_cases h : l.isEmpty
    · simp [get_conditions_return_fields, pyOrList, h, defaultReturnFields]
    · simp only [get_conditions_return_fields, pyOrList]
      rw [if_neg h]
      exact fun hl => h (by simp [hl])

/-- C6: `setup_models` recognizes exactly the model versions `3.6B` and
`1B`; the two variants pass different channel widths, head counts and
block depths to `StageC`; every other `model_version` value raises
`ValueError` with an unknown-version message. -/
theorem C6_model_version_dispatch :
    (∀ (v : String) (e : Option ℕ),
      (∃ r, buildGenerators v e = Except.ok r) ↔ (v = "3.6B" ∨ v = "1B")) ∧
    stageCArgs36B.c_hidden ≠ stageCArgs1B.c_hidden ∧
    stageCArgs36B.nhead ≠ stageCArgs1B.nhead ∧
    stageCArgs36B.blocks ≠ stageCArgs1B.blocks ∧
    (∀ (v : String) (e : Option ℕ), v ≠ "3.6B" → v ≠ "1B" →
      buildGenerators v e = Except.error ("Unknown model version " ++ v)) := by
  refine ⟨?_, by decide, by decide, by decide, ?_⟩
  · intro v e
    constructor
    · rintro ⟨r, hr⟩
      by_cases h1 : v = "3.6B"
      · exact Or.inl h1
      · by_cases h2 : v = "1B"
        · exact Or.inr h2
        · simp [buildGenerators, h1, h2] at hr
    · rintro (rfl | rfl)
      · exact ⟨_, rfl⟩
      · exact ⟨_, rfl⟩
  · intro v e h1 h2
    simp [buildGenerators, h1, h2]

/-- C6 witness: a concrete unrecognized `model_version` errors out. -/
theorem C6_model_version_dispatch_witness :
    buildGenerators "7B" none = Except.error ("Unknown model version " ++ "7B") :=
  C6_model_version_dispatch.2.2.2.2 "7B" none (by decide) (by decide)

/-- C8: in `setup_models`, an EMA shadow is built iff
`ema_start_iters` is not `None`; when present it is constructed with
exactly the arguments of the trainable generator for the selected
version, and its weights are copied from the trainable generator before
the EMA checkpoint restore runs. -/
theorem C8_ema_shadow :
    (∀ (v : String) (e : Option ℕ) (r : StageCArgs × Option StageCArgs),
      buildGenerators v e = Except.ok r →
        (r.2.isSome ↔ e.isSome) ∧ ∀ a, r.2 = some a → a = r.1) ∧
    (∀ (w : List (String × ℚ)) (f : List (String × ℚ) → List (String × ℚ)),
      (setupEmaWeights w f).1 = w ∧ (setupEmaWeights w f).2 = f w) := by
  constructor
  · intro v e r hr
    by_cases h1 : v = "3.6B"
    · subst h1
      simp only [buildGenerators, if_true, reduceIte] at hr
      cases hr
      cases e <;> simp
    · by_cases h2 : v = "1B"
      · subst h2
        simp [buildGenerators] at hr
        cases hr
        cases e <;> simp
      · simp [buildGenerators, h1, h2] at hr
  · intro w f
    exact ⟨rfl, rfl⟩

/-- C8 witness: the `1B` variant with EMA enabled yields a shadow whose
arguments equal the generator arguments. -/
theorem C8_ema_shadow_witness :
    (((stageCArgs1B, some stageCArgs1B) : StageCArgs × Option StageCArgs).2.isSome
        ↔ (some 500 : Option ℕ).isSome) ∧
    stageCArgs1B = ((stageCArgs1B, some stageCArgs1B) : StageCArgs × Option StageCArgs).1 :=
  ⟨(C8_ema_shadow.1 "1B" (some 500) (stageCArgs1B, some stageCArgs1B) rfl).1,
    (C8_ema_shadow.1 "1B" (some 500) (stageCArgs1B, some stageCArgs1B) rfl).2
      stageCArgs1B rfl⟩

/-- C7: every frozen component of the bundle returned by
`setup_models` — effnet, previewer, the EMA shadow when present, and
the CLIP text/projection/image sub-models — ends in evaluation mode
with gradient tracking disabled, whatever mode flags construction and
weight loading left behind. -/
theorem C7_frozen_models :
    ∀ (lf : LoadFlags) (emaEnabled : Bool),
      (setup_models_flags lf emaEnabled).effnet.frozen ∧
      (setup_models_flags lf emaEnabled).previewer.frozen ∧
      (∀ m, (setup_models_flags lf emaEnabled).generator_ema = some m → m.frozen) ∧
      ((setup_models_flags lf emaEnabled).generator_ema.isSome ↔ emaEnabled = true) ∧
      (setup_models_flags lf emaEnabled).clip_text_model.frozen ∧
      (setup_models_flags lf emaEnabled).clip_text_model_proj.frozen ∧
      (setup_models_flags lf emaEnabled).clip_image_model.frozen := by
  intro lf emaEnabled
  refine ⟨⟨rfl, rfl⟩, ⟨rfl, rfl⟩, ?_, ?_, ⟨rfl, rfl⟩, ⟨rfl, rfl⟩, ⟨rfl, rfl⟩⟩
  · intro m hm
    cases emaEnabled with
    | false => simp [setup_models_flags] at hm
    | true =>
      simp [setup_models_flags] at hm
      subst hm
      exact ⟨rfl, rfl⟩
  · cases emaEnabled <;> simp [setup_models_flags]

/-- C7 witness: with EMA enabled and every load leaving train-mode
flags behind, the returned EMA shadow is frozen. -/
theorem C7_frozen_models_witness :
    (setup_models_flags
        { effnetLoaded := ⟨true, true⟩, previewerLoaded := ⟨true, true⟩,
          generatorLoaded := ⟨true, true⟩, emaRestored := ⟨true, true⟩,
          clipTextLoaded := ⟨true, true⟩, clipTextProjLoaded := ⟨true, true⟩,
          clipImageLoaded := ⟨true, true⟩ } true).effnet.frozen ∧
    ModuleFlags.frozen ⟨false, false⟩ :=
  ⟨(C7_frozen_models _ true).1,
    (C7_frozen_models
        { effnetLoaded := ⟨true, true⟩, previewerLoaded := ⟨true, true⟩,
          generatorLoaded := ⟨true, true⟩, emaRestored := ⟨true, true⟩,
          clipTextLoaded := ⟨true, true⟩, clipTextProjLoaded := ⟨true, true⟩,
          clipImageLoaded := ⟨true, true⟩ } true).2.2.1 ⟨false, false⟩ rfl⟩

/-- C4 counterexample: the generator resume checkpoint is applied with
no `state_dict` unwrapping (line 152), so on a wrapped checkpoint the
payload handed to `load_state_dict` is the outer dict, not the
contained weights — unlike the effnet/previewer loaders. -/
theorem C4_counterexample :
    generatorResumePayload (mkWrapped [("w", 1)]) ≠ containedWeights [("w", 1)] ∧
    selectStateDict (mkWrapped [("w", 1)]) = containedWeights [("w", 1)] := by
  constructor
  · intro h
    simp [generatorResumePayload, mkWrapped, containedWeights] at h
  · rfl

/-- C4 (amended): the effnet and previewer loaders accept both a bare
state mapping and one nested under `state_dict`, applying the contained
weights in either form; the generator resume loader applies the
`torch.load` result as-is, so it installs the contained weights only
for a bare state mapping, and hands a wrapped checkpoint through
unmodified. -/
theorem C4_state_dict_unwrapping :
    ∀ sd : List (String × ℚ),
      (hasKey (mkBare sd) "state_dict" = false →
        selectStateDict (mkBare sd) = containedWeights sd) ∧
      selectStateDict (mkWrapped sd) = containedWeights sd ∧
      generatorResumePayload (mkBare sd) = containedWeights sd ∧
      generatorResumePayload (mkWrapped sd) = PyVal.dict (mkWrapped sd) := by
  intro sd
  refine ⟨?_, ?_, rfl, rfl⟩
  · intro h
    simp only [selectStateDict, h]
    rfl
  · simp [selectStateDict, hasKey, getKey, mkWrapped, containedWeights]

/-- C4 witness: a concrete bare checkpoint is applied unchanged by both
loader styles. -/
theorem C4_state_dict_unwrapping_witness :
    selectStateDict (mkBare [("w", 1)]) = containedWeights [("w", 1)] :=
  (C4_state_dict_unwrapping [("w", 1)]).1 rfl

/-- C3: `setup_schedulers` builds the warmup scheduler over
`warmup_updates` steps and sets `last_epoch` to the restored
`info.total_steps`, so the resumed scheduler has the same effective
multiplier as a fresh scheduler stepped `total_steps` times, and the
multiplier is strictly positive after at least one restored step —
warmup never restarts at zero. -/
theorem C3_warmup_resume :
    ∀ W S : ℕ,
      (setup_schedulers W S).multiplier
        = (GradualWarmupScheduler.step^[S] (GradualWarmupScheduler.fresh W)).multiplier ∧
      (0 < W → 0 < S → 0 < (setup_schedulers W S).multiplier) := by
  have hiter : ∀ (S : ℕ) (s : GradualWarmupScheduler),
      GradualWarmupScheduler.step^[S] s
        = { s with last_epoch := s.last_epoch + S } := by
    intro S
    induction S with
    | zero => intro s; rfl
    | succ n ih =>
      intro s
      rw [Function.iterate_succ_apply, ih]
      simp [GradualWarmupScheduler.step, Nat.add_comm, Nat.add_assoc, Nat.add_left_comm]
  intro W S
  constructor
  · rw [hiter]
    simp [setup_schedulers, GradualWarmupScheduler.fresh]
  · intro hW hS
    unfold setup_schedulers GradualWarmupScheduler.multiplier
    by_cases h : W ≤ S
    · simp [GradualWarmupScheduler.fresh, h]
    · simp only [GradualWarmupScheduler.fresh]
      rw [if_neg h]
      exact div_pos (by exact_mod_cast hS) (by exact_mod_cast hW)

/-- C3 witness: a scheduler restored at step 3 of a 10-step warmup has
a positive multiplier. -/
theorem C3_warmup_resume_witness :
    0 < (setup_schedulers 10 3).multiplier :=
  (C3_warmup_resume 10 3).2 (by decide) (by decide)

/-- C5: `loss_adjusted` equals the sum over the batch of
(per-sample mean-squared error over the non-batch elements, times the
GDF loss weight), divided by the batch size times the
gradient-accumulation factor; the per-sample loss is the mean of the
elementwise squared errors. -/
theorem C5_loss_adjusted_formula :
    ∀ (pred target : List (List ℚ)) (w : List ℚ) (N B : ℕ),
      pred.length = B → target.length = B → w.length = B →
      (loss_adjusted pred target w N
        = (List.zipWith (· * ·) (List.zipWith sampleLoss pred target) w).sum
            / ((B : ℚ) * (N : ℚ))) ∧
      ∀ p t : List ℚ,
        sampleLoss p t
          = (List.zipWith (fun a b => (a - b) ^ 2) p t).sum
              / ((min p.length t.length : ℕ) : ℚ) := by
  intro pred target w N B hp ht hw
  constructor
  · unfold loss_adjusted listMean forwardLoss
    rw [List.length_zipWith, List.length_zipWith, hp, ht, hw]
    simp only [min_self]
    rw [div_div]
  · intro p t
    unfold sampleLoss listMean mse_loss_none
    rw [List.length_zipWith]

/-- C5 witness: a concrete one-sample batch evaluates to the spec
formula. -/
theorem C5_loss_adjusted_formula_witness :
    loss_adjusted [[1, 3]] [[0, 1]] [2] 4
      = (List.zipWith (· * ·) (List.zipWith sampleLoss [[1, 3]] [[0, 1]]) [2]).sum
          / ((1 : ℚ) * (4 : ℚ)) :=
  (C5_loss_adjusted_formula [[1, 3]] [[0, 1]] [2] 4 1 rfl rfl rfl).1

theorem backward_pass_true_totalSteps (g : ℚ) (st : BPState) :
    (backward_pass true g st).1.totalSteps = st.totalSteps + 1 := rfl

/-- C1: `backward_pass` with `update=True` back-propagates the adjusted
loss, clips the global gradient norm to 1.0, steps every optimizer and
every scheduler in the bundles, zeroes all optimizer gradients, and
increments `info.total_steps` by exactly one; over a window of `n`
micro-batches (`n - 1` non-final, one final) the global step counter
increases by exactly 1. -/
theorem C1_backward_pass_update :
    ∀ (g : ℚ) (st : BPState) (n : ℕ), 1 ≤ n →
      (backward_pass true g st).1.totalSteps = st.totalSteps + 1 ∧
      (backward_pass true g st).1.optSteps
        = st.optSteps.map (fun p => (p.1, p.2 + 1)) ∧
      (backward_pass true g st).1.schedSteps
        = st.schedSteps.map (fun p => (p.1, p.2 + 1)) ∧
      (backward_pass true g st).1.grads = none ∧
      Ev.backward true ∈ (backward_pass true g st).2.1 ∧
      Ev.clipGradNorm 1 ∈ (backward_pass true g st).2.1 ∧
      (∀ k ∈ st.optSteps.map Prod.fst, Ev.optStep k ∈ (backward_pass true g st).2.1) ∧
      (∀ k ∈ st.schedSteps.map Prod.fst, Ev.schedStep k ∈ (backward_pass true g st).2.1) ∧
      (∀ k ∈ st.optSteps.map Prod.fst, Ev.zeroGrad k ∈ (backward_pass true g st).2.1) ∧
      (backward_pass true g st).2.2 = Except.ok |st.grads.getD 0 + g| ∧
      |(clipGradNormOp 1 (st.grads.getD 0 + g)).1| ≤ 1 ∧
      (runMicroBatches g (windowFlags n) st).1.totalSteps = st.totalSteps + 1 := by
  intro g st n hn
  refine ⟨rfl, rfl, rfl, rfl, ?_, ?_, ?_, ?_, ?_, rfl,
    clipGradNormOp_fst_abs_le_one _, ?_⟩
  · simp [backward_pass]
  · simp [backward_pass]
  · intro k hk
    simp only [List.mem_map] at hk
    obtain ⟨p, hp, rfl⟩ := hk
    simp [backward_pass, List.mem_append, List.mem_map]
    exact ⟨p.2, hp⟩
  · intro k hk
    simp only [List.mem_map] at hk
    obtain ⟨p, hp, rfl⟩ := hk
    simp [backward_pass, List.mem_append, List.mem_map]
    exact ⟨p.2, hp⟩
  · intro k hk
    simp only [List.mem_map] at hk
    obtain ⟨p, hp, rfl⟩ := hk
    simp [backward_pass, List.mem_append, List.mem_map]
    exact ⟨p.2, hp⟩
  · simp only [windowFlags]
    rw [runMicroBatches_fst_append]
    simp only [runMicroBatches]
    rw [backward_pass_true_totalSteps, runMicroBatches_replicate_false_totalSteps]

/-- C1 witness: one update call from a concrete state advances the
step counter by one. -/
theorem C1_backward_pass_update_witness :
    (backward_pass true 1
        ⟨none, [("generator", 0)], [("generator", 0)], 0⟩).1.totalSteps
      = (⟨none, [("generator", 0)], [("generator", 0)], 0⟩ : BPState).totalSteps + 1 :=
  (C1_backward_pass_update 1
    ⟨none, [("generator", 0)], [("generator", 0)], 0⟩ 3 (by decide)).1

/-- C2: `backward_pass` with `update=False` back-propagates inside the
`no_sync` scope only; no optimizer or scheduler is stepped, gradients
are accumulated rather than zeroed, and `info.total_steps` is
unchanged; over an accumulation window the first `n - 1` backward calls
are unsynced and exactly one synced backward happens. -/
theorem C2_backward_pass_no_update :
    ∀ (g : ℚ) (st : BPState) (n : ℕ), 1 ≤ n →
      (backward_pass false g st).2.1 = [Ev.backward false] ∧
      (backward_pass false g st).1.optSteps = st.optSteps ∧
      (backward_pass false g st).1.schedSteps = st.schedSteps ∧
      (backward_pass false g st).1.grads = some (st.grads.getD 0 + g) ∧
      (backward_pass false g st).1.totalSteps = st.totalSteps ∧
      (runMicroBatches g (windowFlags n) st).2.take (n - 1)
        = List.replicate (n - 1) (Ev.backward false) ∧
      ((runMicroBatches g (windowFlags n) st).2).count (Ev.backward true) = 1 := by
  intro g st n hn
  refine ⟨rfl, rfl, rfl, rfl, rfl, ?_, ?_⟩
  · simp only [windowFlags]
    rw [runMicroBatches_snd_append, runMicroBatches_replicate_false_trace]
    have h := List.take_left (List.replicate (n - 1) (Ev.backward false))
      (runMicroBatches g [true]
        (runMicroBatches g (List.replicate (n - 1) false) st).1).2
    rwa [List.length_replicate] at h
  · simp only [windowFlags]
    rw [runMicroBatches_snd_append, runMicroBatches_replicate_false_trace,
      List.count_append]
    have h0 : (List.replicate (n - 1) (Ev.backward false)).count (Ev.backward true)
        = 0 := by
      simp [List.count_eq_zero, List.mem_replicate]
    have h1 : (runMicroBatches g [true]
        (runMicroBatches g (List.replicate (n - 1) false) st).1).2
          = (backward_pass true g
              (runMicroBatches g (List.replicate (n - 1) false) st).1).2.1 := by
      simp [runMicroBatches]
    rw [h0, h1, count_backward_true_update_trace]

/-- C2 witness: a concrete non-final micro-batch emits only an unsynced
backward event. -/
theorem C2_backward_pass_no_update_witness :
    (backward_pass false 1
        ⟨none, [("generator", 0)], [("generator", 0)], 0⟩).2.1
      = [Ev.backward false] :=
  (C2_backward_pass_no_update 1
    ⟨none, [("generator", 0)], [("generator", 0)], 0⟩ 3 (by decide)).1

/-- C9: `backward_pass` with `update=False` accumulates the gradient
under the no-sync scope but then fails at `return grad_norm` with an
unbound-local-variable error, because `grad_norm` is assigned only in
the `update=True` branch. -/
theorem C9_unbound_grad_norm :
    ∀ (g : ℚ) (st : BPState),
      (backward_pass false g st).2.2
        = Except.error
            "UnboundLocalError: local variable grad_norm referenced before assignment" ∧
      (backward_pass false g st).1.grads = some (st.grads.getD 0 + g) :=
  fun _ _ => ⟨rfl, rfl⟩

end WurstCore
